import Mathlib

/-!
Shallow embedding of the `nq` patch/state reconciliation engine
(`src/nq/git.py`, `src/nq/patches.py`).

The submodule repository is modelled as a linear history: a pinned base
commit plus the list of commits strictly after it up to HEAD (`ahead`),
each carrying a tree-content hash.  Results of external `git` commands
that the code merely consumes (fetch success, `format-patch` output
listing, the three `git diff --name-only` listings after a failed
`git am`, ...) are oracle fields of the state records.

Python-level outcomes are modelled by `Py α = Except PyErr α`:
`sys.exit(n)` becomes `PyErr.exitCode n`, an uncaught
`subprocess.CalledProcessError` from a `check=True` invocation becomes
`PyErr.calledProcessError`, a `TypeError` from keyword-argument binding
becomes `PyErr.typeError`, an `AttributeError` from attribute access on a
plain dict becomes `PyErr.attributeError`, and `raise ValueError` becomes
`PyErr.valueError`.
-/

/-- Outcome of a Python-level failure: process exit, uncaught
`subprocess.CalledProcessError`, `TypeError`, `AttributeError`, or
`ValueError`. -/
inductive PyErr where
  | exitCode : Nat → PyErr
  | calledProcessError : String → PyErr
  | typeError : String → PyErr
  | attributeError : String → PyErr
  | valueError : PyErr
deriving DecidableEq

deriving instance DecidableEq for Except

/-- A Python computation: either a value or an uncaught failure. -/
abbrev Py (α : Type) := Except PyErr α

/-- State of one managed submodule together with the oracle results of the
external `git` commands the code consults.  `ahead` lists the commits
strictly after the pinned base up to HEAD, oldest first, as
`(commit id, tree hash)` pairs; `ahead = []` means HEAD is the pinned
commit. -/
structure SubRepo where
  /-- Whether `git rev-parse --git-dir` in `repo_path` succeeds. -/
  isGitRepo : Bool
  /-- lines printed by `git ls-files --others --exclude-standard`. -/
  untracked : List String
  /-- Whether `git diff-index --quiet HEAD --` exits non-zero. -/
  uncommitted : Bool
  /-- Whether `git ls-tree HEAD <name>` in the parent repo prints a non-empty line. -/
  lsTreePresent : Bool
  /-- the gitlink commit recorded by the parent repository. -/
  pinnedId : Nat
  /-- tree-content hash of the pinned commit. -/
  pinnedTree : Nat
  /-- commits strictly after the pinned base up to HEAD: `(id, tree)`. -/
  ahead : List (Nat × Nat)
  /-- filenames matching `*.patch` directly under `repo_info.workspace_path`. -/
  workspacePatches : List String
  /-- filenames matching `*.patch` under `repo_info.patches_path`
  (`<workspace>/patches/<name>/`); the code never reads this directory. -/
  patchesDirPatches : List String
  /-- the `*.patch` listing of `workspace_path` right after
  `git format-patch --output-directory <workspace_path> <pinned>` ran. -/
  formatPatchListing : List String
  /-- the `git format-patch` invocation itself succeeds. -/
  formatPatchOk : Bool
  /-- the final `git add *.patch` staging invocation succeeds. -/
  stagePatchOk : Bool
deriving DecidableEq

/-- Commit id of HEAD: the last commit of `ahead`, or the pinned commit. -/
def headId (s : SubRepo) : Nat :=
  match s.ahead.getLast? with
  | some c => c.1
  | none => s.pinnedId

/-- Tree hash of HEAD: the last commit of `ahead`, or the pinned tree. -/
def headTree (s : SubRepo) : Nat :=
  match s.ahead.getLast? with
  | some c => c.2
  | none => s.pinnedTree

/-- Value of `git rev-list --count <pinned>..HEAD` on the linear history. -/
def commitsAhead (s : SubRepo) : Nat := s.ahead.length

/-- Model of `get_submodule_commit` (git.py:96-115): `git ls-tree HEAD <name>` in the
parent repository; empty output prints an error and calls `sys.exit(1)`,
otherwise the third column (the pinned commit) is returned. -/
def get_submodule_commit (s : SubRepo) : Py Nat :=
  if s.lsTreePresent then Except.ok s.pinnedId
  else Except.error (PyErr.exitCode 1)

/-- Model of `check_repo_is_committed` (git.py:118-151): `git rev-parse --git-dir`
with `check=True`, then untracked listing, then `git diff-index --quiet`. -/
def check_repo_is_committed (s : SubRepo) : Py Bool :=
  if s.isGitRepo = false then
    Except.error (PyErr.calledProcessError "git rev-parse --git-dir")
  else if !s.untracked.isEmpty then Except.ok false
  else if s.uncommitted then Except.ok false
  else Except.ok true

/-- Content of the plain dict built by `get_repo_status` (git.py:156-163);
the function fills and returns it by item access (`status["is_clean"]`),
and it stays a dict — it is never converted to an object with attributes. -/
structure RepoStatusR where
  is_clean : Bool
  has_uncommitted : Bool
  has_untracked : Bool
  patches_exist : Bool
  patches_applied : Bool
  error : Option String
deriving DecidableEq

/-- Model of `get_repo_status` (git.py:154-214).  The is-repo probe runs with
`check=True` and no handler, so a non-repository raises; `is_clean` is
`git diff --quiet <pinned> HEAD` (tree-content comparison); the patch glob
runs over `workspace_path`; `patches_applied` is computed only when
patches exist and the tree is not clean, via
`git rev-list --count <pinned>..HEAD`. -/
def get_repo_status (s : SubRepo) : Py RepoStatusR :=
  if s.isGitRepo = false then
    Except.error (PyErr.calledProcessError "git rev-parse --git-dir")
  else
    let has_untracked := !s.untracked.isEmpty
    let has_uncommitted := s.uncommitted
    match get_submodule_commit s with
    | Except.error e => Except.error e
    | Except.ok _pinned =>
      let is_clean := headTree s == s.pinnedTree
      let patches := s.workspacePatches
      let patches_exist := !patches.isEmpty
      if patches_exist && !is_clean then
        match get_submodule_commit s with
        | Except.error e => Except.error e
        | Except.ok _ =>
          Except.ok { is_clean := is_clean, has_uncommitted := has_uncommitted,
                      has_untracked := has_untracked, patches_exist := patches_exist,
                      patches_applied := commitsAhead s == patches.length,
                      error := none }
      else
        Except.ok { is_clean := is_clean, has_uncommitted := has_uncommitted,
                    has_untracked := has_untracked, patches_exist := patches_exist,
                    patches_applied := false, error := none }

/-- The `git reset --hard <pinned>` transition: HEAD and index move to the
pinned commit; untracked files are untouched. -/
def hardResetToPinned (s : SubRepo) : SubRepo :=
  { s with ahead := [], uncommitted := false }

/-- Model of Python attribute access on the value `get_repo_status`
returns: that value is a plain dict (git.py:156-163, 214), and a dict
exposes its entries by item access only, so reading any of these names as
an attribute (`status.is_clean`, `status.patches_exist`,
`status.patches_applied` at patches.py:68) raises `AttributeError`. -/
def statusDictAttr (_st : RepoStatusR) (name : String) : Py Bool :=
  Except.error (PyErr.attributeError name)

/-- Model of the guard expression
`not status.is_clean and (not status.patches_exist or not status.patches_applied)`
at patches.py:68, with Python evaluation order and short-circuiting; each
read goes through dict attribute access, so the first read
(`status.is_clean`) raises before a boolean is ever produced. -/
def reset_guard_expr (st : RepoStatusR) : Py Bool :=
  match statusDictAttr st "is_clean" with
  | Except.error e => Except.error e
  | Except.ok is_clean =>
    if is_clean then Except.ok false
    else
      match statusDictAttr st "patches_exist" with
      | Except.error e => Except.error e
      | Except.ok patches_exist =>
        if !patches_exist then Except.ok true
        else
          match statusDictAttr st "patches_applied" with
          | Except.error e => Except.error e
          | Except.ok patches_applied => Except.ok (!patches_applied)

/-- Tail of `reset_repo` after the (possibly skipped) committed check
(patches.py:62-87): obtain the status dict, evaluate the data-loss guard —
whose attribute reads on the dict raise — and otherwise hard reset to the
pinned commit. -/
def reset_repo_after_check (s : SubRepo) : Py (Bool × SubRepo) :=
  match get_repo_status s with
  | Except.error e => Except.error e
  | Except.ok st =>
    match reset_guard_expr st with
    | Except.error e => Except.error e
    | Except.ok true => Except.ok (false, s)
    | Except.ok false =>
      match get_submodule_commit s with
      | Except.error e => Except.error e
      | Except.ok _pinned => Except.ok (true, hardResetToPinned s)

/-- Model of `reset_repo` (patches.py:56-87).  `if not force and not
check_repo_is_committed(...)` short-circuits: with `force` the committed
check never runs, but the status call and guard below it always run, and
the guard crashes on the dict attribute reads. -/
def reset_repo (s : SubRepo) (force : Bool) : Py (Bool × SubRepo) :=
  if force then reset_repo_after_check s
  else
    match check_repo_is_committed s with
    | Except.error e => Except.error e
    | Except.ok false => Except.ok (false, s)
    | Except.ok true => reset_repo_after_check s

/-- Model of `new_patch.name.split("-")[0]` (patches.py:247): the ordinal part of a
patch filename (the whole name when it holds no dash). -/
def patchOrdinal (n : String) : String := (n.splitOn "-").headD ""

/-- Model of `export_patches` (patches.py:219-274): committed check, snapshot the old
`*.patch` glob of `workspace_path`, run `git format-patch` from the pinned
commit into `workspace_path`, glob again, unlink every old file that shares
an ordinal with a differently-named new file, then `git add *.patch`. -/
def export_patches (s : SubRepo) : Py (Bool × SubRepo) :=
  match check_repo_is_committed s with
  | Except.error e => Except.error e
  | Except.ok false => Except.ok (false, s)
  | Except.ok true =>
    let old := s.workspacePatches
    match get_submodule_commit s with
    | Except.error e => Except.error e
    | Except.ok _pinned =>
      if s.formatPatchOk = false then
        Except.error (PyErr.calledProcessError "git format-patch")
      else
        let newPs := s.formatPatchListing
        let deleted := old.filter (fun o =>
          newPs.any (fun n => o.startsWith (patchOrdinal n) && o != n))
        let remaining := newPs.filter (fun p => deleted.contains p = false)
        let s2 := { s with workspacePatches := remaining }
        if s.stagePatchOk = false then
          Except.error (PyErr.calledProcessError "git add *.patch")
        else Except.ok (true, s2)

/-- State consulted by `apply_patches`: the patch globs, the repository
path, and the results of the external commands it runs. -/
structure ApplyWorld where
  /-- filenames matching `*.patch` directly under `workspace_path`. -/
  workspacePatches : List String
  /-- filenames matching `*.patch` under `patches_path`; never read. -/
  patchesDirPatches : List String
  /-- absolute path of `repo_info.repo_path`. -/
  repoPath : String
  /-- Whether `git config rerere.enabled true` succeeds. -/
  rerereOk : Bool
  /-- the batch `git am --3way --rerere-autoupdate <files>` succeeds. -/
  gitAmOk : Bool
  /-- the three `git diff --name-only` listings all succeed; on failure the
  collector catches the failure and returns the initial empty list. -/
  diffCmdsOk : Bool
  /-- lines of `git diff --name-only --diff-filter=U` after the failure. -/
  conflictedOut : List String
  /-- lines of `git diff --name-only --staged` after the failure. -/
  stagedOut : List String
  /-- lines of `git diff --name-only` after the failure. -/
  unstagedOut : List String
deriving DecidableEq

/-- Python `str.strip()`: drop leading and trailing whitespace. -/
def pyStrip (s : String) : String :=
  ⟨((s.data.dropWhile Char.isWhitespace).reverse.dropWhile Char.isWhitespace).reverse⟩

/-- stdout of a command that prints the given lines: the newline-joined
text. -/
def joinNl (lines : List String) : String :=
  ⟨List.intercalate ['\n'] (lines.map String.data)⟩

/-- Python `str.split("\n")`; on the empty string it yields `[""]`. -/
def pySplitNl (s : String) : List String :=
  (s.data.splitOn '\n').map String.mk

/-- Model of `result.stdout.strip().split("\n")` for a command whose stdout is the
newline-joined list of lines. -/
def pyStripSplit (lines : List String) : List String :=
  pySplitNl (pyStrip (joinNl lines))

/-- Model of `(repo_path / file).absolute()` for an absolute `repo_path`; `pathlib`
drops an empty path component. -/
def absJoin (repo f : String) : String :=
  if f = "" then repo else repo ++ "/" ++ f

/-- lexicographic comparison of character lists. -/
def charListLt : List Char → List Char → Bool
  | [], [] => false
  | [], _ :: _ => true
  | _ :: _, [] => false
  | a :: as, b :: bs => if a < b then true else if b < a then false else charListLt as bs

/-- lexicographic `<` on strings. -/
def strLt (a b : String) : Bool := charListLt a.data b.data

/-- insertion of a string into a sorted list, ordered by `strLt`. -/
def insertSorted (x : String) : List String → List String
  | [] => [x]
  | y :: ys => if strLt x y then x :: y :: ys else y :: insertSorted x ys

/-- Python `sorted` on a list of strings. -/
def sortStrings : List String → List String
  | [] => []
  | x :: xs => insertSorted x (sortStrings xs)

/-- Model of `_get_pending_git_files` (patches.py:277-343).  Note the conflicted-file
filter keeps exactly the entries with `len(f) == 0` (patches.py:321-326),
while the staged and unstaged filters keep the truthy (non-empty) entries;
the union is a set, converted to absolute paths. -/
def pendingGitFiles (w : ApplyWorld) : List String :=
  if w.diffCmdsOk = false then []
  else
    let conflicted := (pyStripSplit w.conflictedOut).filter (fun f => f.data.isEmpty)
    let staged := (pyStripSplit w.stagedOut).filter (fun f => f.data.isEmpty = false)
    let unstaged := (pyStripSplit w.unstagedOut).filter (fun f => f.data.isEmpty = false)
    ((conflicted ++ staged ++ unstaged).dedup).map (absJoin w.repoPath)

/-- Model of `ApplyResult` (patches.py:346-350). -/
structure ApplyResult where
  success : Bool
  failed_target_files : List String
deriving DecidableEq

/-- Model of `apply_patches` (patches.py:353-396): trivial success when no `*.patch`
file is under `workspace_path`; enable rerere; run the batch `git am`; on
failure return the pending-file collection with `success=false`. -/
def apply_patches (w : ApplyWorld) : Py ApplyResult :=
  let patch_files := sortStrings w.workspacePatches
  if patch_files.isEmpty then
    Except.ok { success := true, failed_target_files := [] }
  else if w.rerereOk = false then
    Except.error (PyErr.calledProcessError "git config rerere.enabled true")
  else if w.gitAmOk then
    Except.ok { success := true, failed_target_files := [] }
  else
    Except.ok { success := false, failed_target_files := pendingGitFiles w }

/-- Model of `list_patches` (patches.py:399-409): sort the `*.patch` glob
of `workspace_path` and print each name (the second component is the
printed listing, empty when a no-patches message is printed instead);
always returns True. -/
def list_patches (s : SubRepo) : Bool × List String :=
  (true, sortStrings s.workspacePatches)

/-- Parameter names of `def reset_repo(repo_info, force=False)`
(patches.py:56). -/
def resetRepoParamNames : List String := ["repo_info", "force"]

/-- Python keyword-argument binding: passing a keyword that is not among
the parameter names of the callee raises `TypeError` before the callee runs. -/
def callWithKeyword (params : List String) (kw : String) (call : Py α) : Py α :=
  if params.contains kw then call
  else Except.error (PyErr.typeError ("unexpected keyword argument " ++ kw))

/-- State consulted by `pull_repo`: the submodule, the parent (main)
repository checks, and the remaining external command results. -/
structure PullWorld where
  sub : SubRepo
  /-- Value of `repo_info.name`. -/
  name : String
  /-- Whether `git diff --quiet` in the main repository exits non-zero. -/
  mainUnstaged : Bool
  /-- Whether `git diff --quiet --cached` in the main repository exits non-zero. -/
  mainStaged : Bool
  /-- Whether `git fetch --prune` succeeds. -/
  fetchOk : Bool
  /-- stripped stdout of `git symbolic-ref refs/remotes/origin/HEAD`;
  `none` when the command itself fails (`check=True`). -/
  symRefOut : Option String
  /-- Whether `git reset --hard <target>` succeeds. -/
  resetTargetOk : Bool
  /-- Whether `git add <repo_path>` in the main repository succeeds. -/
  addOk : Bool
  /-- Whether `git status --porcelain <repo_path>` prints something. -/
  porcelainNonempty : Bool
  /-- Whether `git commit -m <msg>` in the main repository succeeds. -/
  commitOk : Bool
deriving DecidableEq

/-- Model of `re.search(r"^refs/remotes/origin/(.+)$", ref_path)` (patches.py:156):
the default branch name, when the symbolic ref has the expected shape. -/
def originRefMatch (out : String) : Option String :=
  let pre := "refs/remotes/origin/"
  if out.startsWith pre && pre.length < out.length then some (out.drop pre.length)
  else none

/-- Tail of `pull_repo` from the hard reset to the target onwards
(patches.py:171-216): reset, stage the gitlink, build the commit message,
commit only when the porcelain status for the submodule path is non-empty. -/
def finish_pull (w : PullWorld) (commit_message : Option String)
    (ref : Option String) (target : String) : Py Bool :=
  if w.resetTargetOk = false then
    Except.error (PyErr.calledProcessError ("git reset --hard " ++ target))
  else if w.addOk = false then
    Except.error (PyErr.calledProcessError "git add")
  else
    let _msg := commit_message.getD (match ref with
      | none => "Update " ++ w.name ++ " to latest"
      | some r => "Update " ++ w.name ++ " to ref " ++ r.take 10)
    if w.porcelainNonempty then
      if w.commitOk = false then Except.error (PyErr.calledProcessError "git commit")
      else Except.ok true
    else Except.ok true

/-- Model of `pull_repo` (patches.py:90-216): main-repo guards, fetch, then either
the default-branch path — which calls
`reset_repo(repo_info, allow_dirty_main_repo=...)` (patches.py:144), a
keyword `reset_repo` does not accept — or the explicit-ref path, and
finally the reset/stage/commit tail. -/
def pull_repo (w : PullWorld) (commit_message ref : Option String)
    (allow_dirty_main_repo : Bool) : Py Bool :=
  if allow_dirty_main_repo = false && w.mainUnstaged then Except.ok false
  else if w.mainStaged then Except.ok false
  else if w.fetchOk = false then
    Except.error (PyErr.calledProcessError "git fetch --prune")
  else
    match ref with
    | none =>
      match callWithKeyword resetRepoParamNames "allow_dirty_main_repo"
          (reset_repo w.sub allow_dirty_main_repo) with
      | Except.error e => Except.error e
      | Except.ok (ok, _s1) =>
        if ok = false then Except.ok false
        else
          match w.symRefOut with
          | none => Except.error (PyErr.calledProcessError "git symbolic-ref")
          | some out =>
            match originRefMatch out with
            | none => Except.error PyErr.valueError
            | some branch => finish_pull w commit_message none ("origin/" ++ branch)
    | some r => finish_pull w commit_message (some r) r

/-! ## Helper lemmas -/

/-- The status snapshot of a valid repository (a git repository whose
gitlink is present in the parent HEAD tree), in closed form. -/
theorem get_repo_status_valid (s : SubRepo)
    (hrepo : s.isGitRepo = true) (hpin : s.lsTreePresent = true) :
    get_repo_status s = Except.ok
      { is_clean := headTree s == s.pinnedTree,
        has_uncommitted := s.uncommitted,
        has_untracked := !s.untracked.isEmpty,
        patches_exist := !s.workspacePatches.isEmpty,
        patches_applied := (!s.workspacePatches.isEmpty && !(headTree s == s.pinnedTree))
          && (s.ahead.length == s.workspacePatches.length),
        error := none } := by
  unfold get_repo_status get_submodule_commit
  rw [hrepo, hpin]
  simp only [Bool.false_eq_true, if_false, if_true]
  by_cases h : (!s.workspacePatches.isEmpty && !(headTree s == s.pinnedTree)) = true
  · rw [if_pos h, h]
    simp [commitsAhead]
  · rw [if_neg h]
    simp only [Bool.not_eq_true] at h
    rw [h]
    simp

/-- Behaviour of `reset_repo_after_check` on a valid repository: as soon
as the status dict is returned, the first guard read `status.is_clean` is
attribute access on a plain dict and raises, so the tail never returns a
boolean result and never reaches the hard reset. -/
theorem reset_repo_after_check_raises (s : SubRepo)
    (hrepo : s.isGitRepo = true) (hpin : s.lsTreePresent = true) :
    reset_repo_after_check s = Except.error (PyErr.attributeError "is_clean") := by
  unfold reset_repo_after_check
  rw [get_repo_status_valid s hrepo hpin]
  rfl

/-! ## C1 -/

/-- Concrete repository for C1: fully committed, one commit ahead with a
differing tree, no patch files — the guard scenario of P2. -/
def c1w : SubRepo :=
  { isGitRepo := true, untracked := [], uncommitted := false,
    lsTreePresent := true, pinnedId := 1, pinnedTree := 10,
    ahead := [(2, 20)], workspacePatches := [],
    patchesDirPatches := [], formatPatchListing := [],
    formatPatchOk := true, stagePatchOk := true }

/-- C1: in the guard scenario (not clean, no patch files) the claim
promises a returned failure with no mutation, but once `get_repo_status`
hands back its plain dict, `reset_repo` reads `status.is_clean` as an
attribute (patches.py:68) and raises `AttributeError` — no failure value
is ever returned.  No mutation happens either: the crash precedes the
hard reset. -/
theorem C1_reset_guard_raises_attribute_error :
    headTree c1w ≠ c1w.pinnedTree
    ∧ c1w.workspacePatches = []
    ∧ reset_repo c1w false = Except.error (PyErr.attributeError "is_clean") :=
  ⟨by decide, rfl, by decide⟩

/-! ## C3 -/

/-- Concrete repository for C3: two commits ahead, two patch files, fully
committed — the matching-patches scenario of P3. -/
def c3w : SubRepo :=
  { isGitRepo := true, untracked := [], uncommitted := false,
    lsTreePresent := true, pinnedId := 1, pinnedTree := 10,
    ahead := [(2, 20), (3, 30)], workspacePatches := ["0001-a.patch", "0002-b.patch"],
    patchesDirPatches := [], formatPatchListing := [],
    formatPatchOk := true, stagePatchOk := true }

/-- C3: the claim promises success with HEAD moved to the pinned commit,
but the dict attribute read `status.is_clean` at patches.py:68 raises
`AttributeError` before `git reset --hard` can run, so the reset never
succeeds and HEAD never reaches the pinned commit. -/
theorem C3_reset_crashes_before_hard_reset :
    c3w.workspacePatches.length = c3w.ahead.length
    ∧ reset_repo c3w false = Except.error (PyErr.attributeError "is_clean") :=
  ⟨rfl, by decide⟩

/-! ## C8 -/

/-- C8: in every status snapshot the inspection returns, `patches_applied`
is true exactly when patches exist, the tree is not clean, and the number
of commits in `pinned..HEAD` equals the number of patch files; in every
other case it is left false. -/
theorem C8_patches_applied_characterisation (s : SubRepo) (st : RepoStatusR)
    (h : get_repo_status s = Except.ok st) :
    st.patches_applied
      = (st.patches_exist && !st.is_clean
         && (commitsAhead s == s.workspacePatches.length)) := by
  by_cases hrepo : s.isGitRepo = true
  · by_cases hpin : s.lsTreePresent = true
    · rw [get_repo_status_valid s hrepo hpin] at h
      have hst := Except.ok.inj h
      subst hst
      simp [Bool.and_assoc, commitsAhead]
    · exfalso
      simp only [Bool.not_eq_true] at hpin
      unfold get_repo_status get_submodule_commit at h
      rw [hrepo, hpin] at h
      simp at h
  · exfalso
    simp only [Bool.not_eq_true] at hrepo
    unfold get_repo_status at h
    rw [hrepo] at h
    simp at h

/-- Concrete repository for the C8 witness: one commit ahead with a
differing tree and one patch file, so the applied count matches. -/
def c8w : SubRepo :=
  { isGitRepo := true, untracked := [], uncommitted := false,
    lsTreePresent := true, pinnedId := 1, pinnedTree := 10,
    ahead := [(2, 20)], workspacePatches := ["0001-a.patch"],
    patchesDirPatches := [], formatPatchListing := [],
    formatPatchOk := true, stagePatchOk := true }

/-- The status snapshot of `c8w`. -/
def c8st : RepoStatusR :=
  { is_clean := false, has_uncommitted := false, has_untracked := false,
    patches_exist := true, patches_applied := true, error := none }

/-- C8 witness: the snapshot of `c8w` satisfies the characterisation. -/
theorem C8_witness :
    get_repo_status c8w = Except.ok c8st
    ∧ c8st.patches_applied
        = (c8st.patches_exist && !c8st.is_clean
           && (commitsAhead c8w == c8w.workspacePatches.length)) :=
  ⟨by decide, C8_patches_applied_characterisation c8w c8st (by decide)⟩

/-! ## C5 -/

/-- Concrete repository for C5: one unexported commit ahead (differing
tree), no patch files; a forced reset is requested. -/
def c5x : SubRepo :=
  { isGitRepo := true, untracked := [], uncommitted := false,
    lsTreePresent := true, pinnedId := 1, pinnedTree := 10,
    ahead := [(2, 20)], workspacePatches := [],
    patchesDirPatches := [], formatPatchListing := [],
    formatPatchOk := true, stagePatchOk := true }

/-- C5: with `force=true` the committed check is indeed skipped, but the
operation never proceeds directly to the hard reset: the status call and
the data-loss guard at patches.py:62-68 run unconditionally even under
`force`, and the first dict attribute read raises `AttributeError`, so a
forced reset always crashes before any reset happens. -/
theorem C5_forced_reset_raises_attribute_error :
    reset_repo c5x true = Except.error (PyErr.attributeError "is_clean") := by
  decide

/-! ## C2 -/

/-- Concrete repository for the C2 counterexample: a patch file exists
under `patches_path` but none under the workspace root. -/
def c2x : SubRepo :=
  { isGitRepo := true, untracked := [], uncommitted := false,
    lsTreePresent := true, pinnedId := 1, pinnedTree := 10,
    ahead := [(2, 20)], workspacePatches := [],
    patchesDirPatches := ["0001-fix.patch"], formatPatchListing := [],
    formatPatchOk := true, stagePatchOk := true }

/-- C2 counterexample: a `*.patch` file under `repo.patches_path` does not
make `patches_exist` true — the inspection reports no patches, refuting the
claim that the consulted set is the one under `patches_path`. -/
theorem C2_counterexample :
    (get_repo_status c2x).map RepoStatusR.patches_exist = Except.ok false
    ∧ c2x.patchesDirPatches ≠ [] := ⟨by decide, by decide⟩

/-- C2 amended: for every inspection, export, apply, and patch listing,
the patch files consulted are exactly those matching `*.patch` directly
under `repo.workspace_path` — not `repo.patches_path`: `patches_exist` is
true iff such a file exists under the workspace root, and status, apply,
export and listing are all invariant under arbitrary changes to the
`patches_path` directory (export only carries the changed directory
through in its returned state, never reading it). -/
theorem C2_patch_globs_use_workspace_root (s : SubRepo) (l : List String)
    (w : ApplyWorld) (l2 : List String)
    (hrepo : s.isGitRepo = true) (hpin : s.lsTreePresent = true) :
    (get_repo_status s).map RepoStatusR.patches_exist
        = Except.ok (!s.workspacePatches.isEmpty)
    ∧ get_repo_status { s with patchesDirPatches := l } = get_repo_status s
    ∧ apply_patches { w with patchesDirPatches := l2 } = apply_patches w
    ∧ export_patches { s with patchesDirPatches := l }
        = (export_patches s).map
            (fun r => (r.fst, { r.snd with patchesDirPatches := l }))
    ∧ list_patches { s with patchesDirPatches := l } = list_patches s := by
  refine ⟨?_, ?_, ?_, ?_, ?_⟩
  · rw [get_repo_status_valid s hrepo hpin]
    rfl
  · cases s
    rfl
  · cases w
    rfl
  · have h1 : check_repo_is_committed { s with patchesDirPatches := l }
        = check_repo_is_committed s := rfl
    have h2 : get_submodule_commit { s with patchesDirPatches := l }
        = get_submodule_commit s := rfl
    unfold export_patches
    rw [h1, h2]
    dsimp only
    cases hck : check_repo_is_committed s with
    | error e => rfl
    | ok b =>
      cases b with
      | false => rfl
      | true =>
        cases hsc : get_submodule_commit s with
        | error e => rfl
        | ok p =>
          by_cases hf : s.formatPatchOk = false
          · rw [if_pos hf, if_pos hf]
            rfl
          · rw [if_neg hf, if_neg hf]
            by_cases hsg : s.stagePatchOk = false
            · rw [if_pos hsg, if_pos hsg]
              rfl
            · rw [if_neg hsg, if_neg hsg]
              rfl
  · cases s
    rfl

/-- Concrete repository for the C2 witness. -/
def c2w : SubRepo :=
  { isGitRepo := true, untracked := [], uncommitted := false,
    lsTreePresent := true, pinnedId := 1, pinnedTree := 10,
    ahead := [], workspacePatches := ["0001-a.patch"],
    patchesDirPatches := [], formatPatchListing := [],
    formatPatchOk := true, stagePatchOk := true }

/-- Concrete apply-time state for the C2 witness. -/
def c2aw : ApplyWorld :=
  { workspacePatches := [], patchesDirPatches := [],
    repoPath := "/ws/repo", rerereOk := true, gitAmOk := true,
    diffCmdsOk := true, conflictedOut := [], stagedOut := [], unstagedOut := [] }

/-- C2 witness: the amended statement at concrete inputs. -/
theorem C2_witness :
    (get_repo_status c2w).map RepoStatusR.patches_exist
        = Except.ok (!c2w.workspacePatches.isEmpty)
    ∧ get_repo_status { c2w with patchesDirPatches := ["0009-z.patch"] }
        = get_repo_status c2w
    ∧ apply_patches { c2aw with patchesDirPatches := ["0009-z.patch"] }
        = apply_patches c2aw
    ∧ export_patches { c2w with patchesDirPatches := ["0009-z.patch"] }
        = (export_patches c2w).map
            (fun r => (r.fst, { r.snd with patchesDirPatches := ["0009-z.patch"] }))
    ∧ list_patches { c2w with patchesDirPatches := ["0009-z.patch"] }
        = list_patches c2w :=
  C2_patch_globs_use_workspace_root c2w ["0009-z.patch"] c2aw ["0009-z.patch"] rfl rfl

/-! ## C7 -/

/-- Concrete repository for C7: `repo_path` is not a git repository. -/
def c7s : SubRepo :=
  { isGitRepo := false, untracked := [], uncommitted := false,
    lsTreePresent := true, pinnedId := 1, pinnedTree := 10,
    ahead := [], workspacePatches := [],
    patchesDirPatches := [], formatPatchListing := [],
    formatPatchOk := true, stagePatchOk := true }

/-- C7: on a non-repository the inspection does not return a status with
`error` set — the `check=True` probe raises an uncaught
`subprocess.CalledProcessError` (the initialised `error` field is never
written anywhere in `get_repo_status`). -/
theorem C7_non_repo_raises_instead_of_error_status :
    get_repo_status c7s
      = Except.error (PyErr.calledProcessError "git rev-parse --git-dir") := by
  decide

/-! ## C6 -/

/-- Concrete apply-time state for C6: the batch `git am` failed leaving
exactly one conflicted file and nothing staged or unstaged. -/
def c6w : ApplyWorld :=
  { workspacePatches := ["0001-add-feature.patch", "0002-conflicting.patch"],
    patchesDirPatches := [], repoPath := "/ws/repo", rerereOk := true,
    gitAmOk := false, diffCmdsOk := true,
    conflictedOut := ["src/main.c"], stagedOut := [], unstagedOut := [] }

/-- C6: with exactly one conflicted file the claim requires
`failed_target_files = ["/ws/repo/src/main.c"]`, but the conflicted-file
filter keeps only entries with `len(f) == 0`, so every conflicted filename
is discarded and the result is empty. -/
theorem C6_conflicted_file_discarded :
    apply_patches c6w
      = Except.ok { success := false, failed_target_files := [] } := by
  decide

/-! ## C9 -/

/-- Concrete apply-time state for C9: a failed `git am` with one conflicted
file and nothing staged or unstaged. -/
def c9w : ApplyWorld :=
  { workspacePatches := ["0001-a.patch"], patchesDirPatches := [],
    repoPath := "/ws/r", rerereOk := true, gitAmOk := false,
    diffCmdsOk := true, conflictedOut := ["README.md"],
    stagedOut := [], unstagedOut := [] }

/-- C9: the invariant `failed_target_files` empty iff `success` fails — the
apply operation returns `success=false` together with an empty
`failed_target_files` list. -/
theorem C9_failure_with_empty_failed_list :
    apply_patches c9w
      = Except.ok { success := false, failed_target_files := [] } := by
  decide

/-! ## C4 -/

/-- Concrete pull-time state for C4: clean main repository, successful
fetch, healthy submodule, remote default branch advertised. -/
def c4w : PullWorld :=
  { sub := { isGitRepo := true, untracked := [], uncommitted := false,
             lsTreePresent := true, pinnedId := 1, pinnedTree := 10,
             ahead := [], workspacePatches := [],
             patchesDirPatches := [], formatPatchListing := [],
             formatPatchOk := true, stagePatchOk := true },
    name := "dep", mainUnstaged := false, mainStaged := false, fetchOk := true,
    symRefOut := some "refs/remotes/origin/main", resetTargetOk := true,
    addOk := true, porcelainNonempty := true, commitOk := true }

/-- C4: a pull with no explicit ref never invokes the internal reset — the
call `reset_repo(repo_info, allow_dirty_main_repo=...)` names a keyword
`reset_repo` does not accept, so the default-branch path fails with a
`TypeError` before any reset occurs. -/
theorem C4_pull_default_branch_raises_type_error :
    pull_repo c4w none none false
      = Except.error (PyErr.typeError
          "unexpected keyword argument allow_dirty_main_repo") := by
  decide

/-! ## C10 -/

/-- Status inspection of a repository whose gitlink is absent from the
parent HEAD tree terminates via `sys.exit(1)`. -/
theorem get_repo_status_no_gitlink (s : SubRepo)
    (hrepo : s.isGitRepo = true) (hpin : s.lsTreePresent = false) :
    get_repo_status s = Except.error (PyErr.exitCode 1) := by
  unfold get_repo_status get_submodule_commit
  rw [hrepo, hpin]
  simp

/-- Concrete pull-time state for the C10 counterexample: the gitlink is
absent from the parent HEAD tree, yet pull does not exit with code 1. -/
def c10x : PullWorld :=
  { sub := { isGitRepo := true, untracked := [], uncommitted := false,
             lsTreePresent := false, pinnedId := 1, pinnedTree := 10,
             ahead := [], workspacePatches := [],
             patchesDirPatches := [], formatPatchListing := [],
             formatPatchOk := true, stagePatchOk := true },
    name := "dep", mainUnstaged := false, mainStaged := false, fetchOk := true,
    symRefOut := some "refs/remotes/origin/main", resetTargetOk := true,
    addOk := true, porcelainNonempty := true, commitOk := true }

/-- C10 counterexample: with the gitlink missing, `pull_repo` does not
terminate with exit code 1 — its default-branch path dies earlier with a
`TypeError`, so the claim is false for the pull operation. -/
theorem C10_counterexample :
    c10x.sub.lsTreePresent = false
    ∧ pull_repo c10x none none false
        = Except.error (PyErr.typeError
            "unexpected keyword argument allow_dirty_main_repo")
    ∧ (PyErr.typeError "unexpected keyword argument allow_dirty_main_repo")
        ≠ PyErr.exitCode 1 := ⟨by decide, by decide, by decide⟩

/-- C10 amended: when the gitlink is absent, status inspection, reset and
export each terminate via `sys.exit(1)` as soon as they reach the
pinned-commit query, while pull never reaches that query: its
default-branch path fails first with the keyword-argument `TypeError`, and
its explicit-ref path never consults the submodule state at all (its
result is invariant under replacing the submodule, and in particular it
never exits with code 1). -/
theorem C10_missing_gitlink_exits_one (s : SubRepo)
    (hrepo : s.isGitRepo = true) (hpin : s.lsTreePresent = false)
    (hun : s.untracked = []) (huc : s.uncommitted = false) :
    get_repo_status s = Except.error (PyErr.exitCode 1)
    ∧ reset_repo s false = Except.error (PyErr.exitCode 1)
    ∧ export_patches s = Except.error (PyErr.exitCode 1)
    ∧ (∀ (w : PullWorld), w.sub = s → w.mainUnstaged = false →
        w.mainStaged = false → w.fetchOk = true →
        pull_repo w none none false
          = Except.error (PyErr.typeError
              "unexpected keyword argument allow_dirty_main_repo"))
    ∧ (∀ (w : PullWorld) (cm : Option String) (r : String) (ad : Bool)
         (s2 : SubRepo),
        pull_repo { w with sub := s2 } cm (some r) ad
          = pull_repo w cm (some r) ad)
    ∧ (∀ (w : PullWorld) (cm : Option String) (r : String) (ad : Bool),
        pull_repo w cm (some r) ad ≠ Except.error (PyErr.exitCode 1)) := by
  have hcheck : check_repo_is_committed s = Except.ok true := by
    unfold check_repo_is_committed
    rw [hrepo, hun, huc]
    simp
  have hst := get_repo_status_no_gitlink s hrepo hpin
  refine ⟨hst, ?_, ?_, ?_, ?_, ?_⟩
  · unfold reset_repo
    rw [hcheck]
    simp only [Bool.false_eq_true, if_false]
    unfold reset_repo_after_check
    rw [hst]
  · unfold export_patches
    rw [hcheck]
    simp only []
    unfold get_submodule_commit
    rw [hpin]
    simp
  · intro w hws hwu hwst hwf
    unfold pull_repo
    rw [hwu, hwst, hwf]
    simp [callWithKeyword, resetRepoParamNames]
  · intro w cm r ad s2
    rfl
  · intro w cm r ad
    unfold pull_repo finish_pull
    dsimp only
    split_ifs <;> simp

/-- Concrete repository for the C10 witness. -/
def c10w : SubRepo :=
  { isGitRepo := true, untracked := [], uncommitted := false,
    lsTreePresent := false, pinnedId := 1, pinnedTree := 10,
    ahead := [(2, 20)], workspacePatches := [],
    patchesDirPatches := [], formatPatchListing := ["0001-a.patch"],
    formatPatchOk := true, stagePatchOk := true }

/-- C10 witness: the amended statement at `c10w`. -/
theorem C10_witness :
    get_repo_status c10w = Except.error (PyErr.exitCode 1)
    ∧ reset_repo c10w false = Except.error (PyErr.exitCode 1)
    ∧ export_patches c10w = Except.error (PyErr.exitCode 1) :=
  ⟨(C10_missing_gitlink_exits_one c10w rfl rfl rfl rfl).1,
   (C10_missing_gitlink_exits_one c10w rfl rfl rfl rfl).2.1,
   (C10_missing_gitlink_exits_one c10w rfl rfl rfl rfl).2.2.1⟩
